import Mathlib

/-!
Verification development for the Luna WhatsApp agent (FastAPI service).

We shallowly embed the pure decision logic of
`fastapi_app/routes/whatsapp.py` and
`fastapi_app/services/openai_service.py`:

* JSON payloads become the inductive `JValue`;
* Python string primitives (`str.strip`, `str.lower`, accent folding via
  NFKD, `str.isdigit`, substring tests) become executable functions on
  `List Char` / `String`;
* database reads (the "most recent message of a kind" queries) and
  network calls (OpenAI API, Uazapi gateway) become explicit inputs
  (oracles) and explicit effect lists;
* places where the Python code can raise an exception are modelled with
  `Except` (`PyErr.attributeError` for attribute errors on non-dict
  values).

Environment variables are modelled at their source defaults (the values
the modules compute at import time when the variable is unset), except
for the handful of settings a claim genuinely quantifies over, which are
gathered in the `Env` structure.
-/

namespace Luna

/-! ## Python string primitives -/

/-- `str.isspace`-style whitespace test used by `str.strip()`. -/
def isWsChar (c : Char) : Bool := c.isWhitespace

/-- `_only_digits` (whatsapp.py / openai_service.py): keep decimal digits. -/
def onlyDigitsL (l : List Char) : List Char := l.filter (fun c => c.isDigit)

def onlyDigits (s : String) : String := ⟨onlyDigitsL s.data⟩

/-- Python `str.strip()` with no arguments: drop whitespace at both ends. -/
def pyStripL (l : List Char) : List Char :=
  ((l.dropWhile isWsChar).reverse.dropWhile isWsChar).reverse

def pyStrip (s : String) : String := ⟨pyStripL s.data⟩

/-- Python `str.lower()` restricted to the character ranges the service
manipulates (ASCII plus the Latin-1 letters used by the Portuguese
vocabularies).  Other characters are left unchanged. -/
def lowerChar (c : Char) : Char :=
  if 'A' ≤ c ∧ c ≤ 'Z' then Char.ofNat (c.toNat + 32)
  else if 0xC0 ≤ c.toNat ∧ c.toNat ≤ 0xDE ∧ c.toNat ≠ 0xD7 then Char.ofNat (c.toNat + 32)
  else c

def upperChar (c : Char) : Char :=
  if 'a' ≤ c ∧ c ≤ 'z' then Char.ofNat (c.toNat - 32)
  else if 0xE0 ≤ c.toNat ∧ c.toNat ≤ 0xFE ∧ c.toNat ≠ 0xF7 then Char.ofNat (c.toNat - 32)
  else c

def pyLower (s : String) : String := ⟨s.data.map lowerChar⟩

/-- `_strip_accents` (whatsapp.py): NFKD-decompose then drop combining
marks.  Modelled for the Latin-1 accented letters; every other character
decomposes to itself for the inputs this service sees. -/
def foldChar (c : Char) : Char :=
  if c ∈ ['à', 'á', 'â', 'ã', 'ä', 'å'] then 'a'
  else if c ∈ ['è', 'é', 'ê', 'ë'] then 'e'
  else if c ∈ ['ì', 'í', 'î', 'ï'] then 'i'
  else if c ∈ ['ò', 'ó', 'ô', 'õ', 'ö'] then 'o'
  else if c ∈ ['ù', 'ú', 'û', 'ü'] then 'u'
  else if c ∈ ['À', 'Á', 'Â', 'Ã', 'Ä', 'Å'] then 'A'
  else if c ∈ ['È', 'É', 'Ê', 'Ë'] then 'E'
  else if c ∈ ['Ì', 'Í', 'Î', 'Ï'] then 'I'
  else if c ∈ ['Ò', 'Ó', 'Ô', 'Õ', 'Ö'] then 'O'
  else if c ∈ ['Ù', 'Ú', 'Û', 'Ü'] then 'U'
  else if c = 'ç' then 'c' else if c = 'Ç' then 'C'
  else if c = 'ñ' then 'n' else if c = 'Ñ' then 'N'
  else if c = 'ý' then 'y' else if c = 'ÿ' then 'y'
  else c

def stripAccents (s : String) : String := ⟨s.data.map foldChar⟩

/-- `_normalize` (whatsapp.py): `_strip_accents(s.strip().lower())`. -/
def pyNormalize (s : String) : String := stripAccents (pyLower (pyStrip s))

/-- Does `l` start with `pat`? -/
def listStartsWith : List Char → List Char → Bool
  | [], _ => true
  | _ :: _, [] => false
  | p :: ps, c :: cs => p = c && listStartsWith ps cs

/-- Python `pat in s` (substring test) on character lists. -/
def containsSubL (pat : List Char) : List Char → Bool
  | [] => pat.isEmpty
  | c :: cs => listStartsWith pat (c :: cs) || containsSubL pat cs

def containsSub (pat s : String) : Bool := containsSubL pat.data s.data

/-- Truthiness of `Optional[str]` (`None` and `""` are falsy). -/
def strTruthyOpt : Option String → Bool
  | some s => s ≠ ""
  | none => false

/-! ## JSON values -/

/-- A parsed JSON document, as `request.json()` returns it. -/
inductive JValue where
  | null
  | bool (b : Bool)
  | num (n : Int)
  | str (s : String)
  | arr (xs : List JValue)
  | obj (fields : List (String × JValue))

/-- Python truthiness of a JSON value (`None`, `False`, `0`, `""`, `[]`,
`{}` are falsy). -/
def jTruthy : JValue → Bool
  | .null => false
  | .bool b => b
  | .num n => n ≠ 0
  | .str s => s ≠ ""
  | .arr xs => !xs.isEmpty
  | .obj fs => !fs.isEmpty

def jLookup (fields : List (String × JValue)) (k : String) : Option JValue :=
  (fields.find? (fun p => p.1 == k)).map (fun p => p.2)

/-- Python `int(part)` restricted to the plain digit strings the fixed
dot-paths of this module contain. -/
def parseNatL (l : List Char) : Option Nat :=
  if l.isEmpty then none
  else if l.all (fun c => c.isDigit) then
    some (l.foldl (fun n c => n * 10 + (c.toNat - 48)) 0)
  else none

/-- `_deep_get` (whatsapp.py) after splitting the dotted path: walk dicts
by key and lists by integer index; any failure returns the default
(`none`).  A stored JSON `null` is returned as `some .null`; all
consumers below treat it exactly as Python treats the returned `None`
(falsy, not a `str`, not a `bool`), so the distinction is unobservable. -/
def deepGetParts : JValue → List String → Option JValue
  | v, [] => some v
  | .arr xs, part :: rest =>
    match parseNatL part.data with
    | none => none
    | some i =>
      match xs.get? i with
      | none => none
      | some v => deepGetParts v rest
  | .obj fs, part :: rest =>
    match jLookup fs part with
    | none => none
    | some v => deepGetParts v rest
  | _, _ :: _ => none

/-- Python `path.split(".")` (keeps empty pieces). -/
def splitDotGo (acc : List Char) : List Char → List String
  | [] => [⟨acc.reverse⟩]
  | c :: cs => if c = '.' then ⟨acc.reverse⟩ :: splitDotGo [] cs else splitDotGo (c :: acc) cs

def deepGet (v : JValue) (path : String) : Option JValue :=
  deepGetParts v (splitDotGo [] path.data)

/-- Python `a or b` on the results of `_deep_get` (a missing value and a
stored `null` are both falsy). -/
def optJ (o : Option JValue) : JValue := o.getD .null

def pyOrJ (a b : JValue) : JValue := if jTruthy a then a else b

/-! ## Auth helpers (`whatsapp.py` lines 110-131)

`_env_token` reads `WEBHOOK_VERIFY_TOKEN`; we pass its value (`expected`)
as a parameter.  `_extract_token_from_request` tries the
`X-Webhook-Token` header, then the `token` query parameter, then the
`hub.verify_token` query parameter; empty strings are falsy and are
skipped exactly as in the source. -/

def extractTokenFromRequest (headerToken qToken qHub : Option String) : Option String :=
  if strTruthyOpt headerToken then headerToken
  else if strTruthyOpt qToken then qToken
  else if strTruthyOpt qHub then qHub
  else none

/-- `_ensure_authorised`: raises 403 iff `expected and provided != expected`.
`true` means the 403 is raised. -/
def authRejects (expected : String) (headerToken qToken qHub : Option String) : Bool :=
  expected != "" && extractTokenFromRequest headerToken qToken qHub != some expected

/-! ## Event normalizer (`whatsapp.py` lines 135-329)

`_phone_regex = (?:^|\D)(\+?\d{10,15})(?:\D|$)`.  A match of this
pattern exists at group-start `j` iff `j` is the string start or is
preceded by a non-digit, and the maximal digit run starting at `j`
(after an optional `+`) has length 10..15 (with 16+ digits every
quantifier choice leaves a digit after the group, so nothing matches).
`re.search` returns the leftmost such group. -/

def phoneGroupAt (l : List Char) : Option (List Char) :=
  let (plus, rest) : Bool × List Char :=
    match l with
    | '+' :: r => (true, r)
    | r => (false, r)
  let run := rest.takeWhile (fun c => c.isDigit)
  if 10 ≤ run.length ∧ run.length ≤ 15 then
    some ((if plus then ['+'] else []) ++ run)
  else none

def phoneBoundary : Option Char → Bool
  | none => true
  | some c => !c.isDigit

def phoneSearchGo (prev : Option Char) : List Char → Option (List Char)
  | [] => none
  | c :: cs =>
    match (if phoneBoundary prev then phoneGroupAt (c :: cs) else none) with
    | some g => some g
    | none => phoneSearchGo (some c) cs

def phoneRegexSearch (s : String) : Option String :=
  (phoneSearchGo none s.data).map (fun l => ⟨l⟩)

/-- Python `x.split("@")[0]`: the prefix before the first `@`. -/
def beforeAt (s : String) : String := ⟨s.data.takeWhile (fun c => c ≠ '@')⟩

/-- `_norm_phone_from_jid`: `None` for non-strings and group JIDs; for
chat JIDs the part before `@`; otherwise the digit string if it has at
least 10 digits. -/
def normPhoneFromJid (v : Option JValue) : Option String :=
  match v with
  | some (.str s) =>
    let v := pyStrip s
    if containsSub "@g.us" v then none
    else if containsSub "@s.whatsapp.net" v || containsSub "@c.us" v then some (beforeAt v)
    else
      let digits := onlyDigits v
      if digits.length ≥ 10 then some digits else none
  | _ => none

/-- One string visited by `_scan_for_phone.walk`: a chat-suffix string
with ≥10 digits before the `@` overwrites the current candidate
unconditionally; otherwise the regex result is kept only when nothing
was found yet. -/
def scanStr (found : Option String) (s : String) : Option String :=
  if containsSub "@s.whatsapp.net" s || containsSub "@c.us" s then
    let p := beforeAt s
    if (onlyDigits p).length ≥ 10 then some p
    else if found = none then phoneRegexSearch s else found
  else if found = none then phoneRegexSearch s
  else found

mutual

def scanJ (found : Option String) : JValue → Option String
  | .obj fs => scanFields found fs
  | .arr xs => scanArr found xs
  | .str s => scanStr found s
  | _ => found

def scanFields (found : Option String) : List (String × JValue) → Option String
  | [] => found
  | (_, v) :: rest => scanFields (scanJ found v) rest

def scanArr (found : Option String) : List JValue → Option String
  | [] => found
  | v :: rest => scanArr (scanJ found v) rest

end

/-- `_scan_for_phone`: walk the whole payload, then digit-strip the
candidate (which always carries ≥10 digits when present). -/
def scanForPhone (v : JValue) : Option String :=
  (scanJ none v).map onlyDigits

/-- `TEXT_KEYS_PRIORITY` (whatsapp.py lines 137-159). -/
def TEXT_KEYS_PRIORITY : List String :=
  [ "data.data.messages.0.message.conversation"
  , "data.data.messages.0.message.extendedTextMessage.text"
  , "messages.0.message.conversation"
  , "messages.0.message.extendedTextMessage.text"
  , "messages.0.text"
  , "data.text"
  , "data.message"
  , "data.body"
  , "text"
  , "message"
  , "body"
  , "content"
  , "caption"
  , "messages.0.message.templateButtonReplyMessage.selectedDisplayText"
  , "messages.0.message.buttonsResponseMessage.selectedButtonId"
  , "messages.0.message.listResponseMessage.title"
  , "data.data.messages.0.message.buttonsResponseMessage.selectedButtonId"
  , "data.data.messages.0.message.templateButtonReplyMessage.selectedDisplayText" ]

def textAllowKeys : List String :=
  ["text", "message", "body", "content", "caption", "conversation", "title"]

def firstPriorityText (e : JValue) : List String → Option String
  | [] => none
  | p :: rest =>
    match deepGet e p with
    | some (.str s) => if pyStrip s ≠ "" then some (pyStrip s) else firstPriorityText e rest
    | _ => firstPriorityText e rest

/-- Direct key/value hit inside `_extract_text_generic.walk`: a string
value under an allow-listed key with non-blank content. -/
def directTextHit (k : String) (v : JValue) : Option String :=
  match v with
  | .str s => if textAllowKeys.contains (pyLower k) ∧ pyStrip s ≠ "" then some (pyStrip s) else none
  | _ => none

mutual

/-- `_extract_text_generic.walk`.  The Python `return` after a direct hit
only pops one recursion level, so a direct string hit in a dict can
overwrite a value found inside an earlier sibling subtree; the entry
guard (`if found: return`) stops all deeper recursion once something is
found.  Both quirks are reproduced. -/
def walkText (found : Option String) : JValue → Option String
  | .obj fs => if found.isSome then found else walkFields found fs
  | .arr xs => if found.isSome then found else walkArr found xs
  | _ => found

def walkFields (found : Option String) : List (String × JValue) → Option String
  | [] => found
  | (k, v) :: rest =>
    match directTextHit k v with
    | some s => some s
    | none => walkFields (walkText found v) rest

def walkArr (found : Option String) : List JValue → Option String
  | [] => found
  | v :: rest => walkArr (walkText found v) rest

end

/-- `_extract_text_generic`. -/
def extractTextGeneric (e : JValue) : Option String :=
  match firstPriorityText e TEXT_KEYS_PRIORITY with
  | some t => some t
  | none => walkText none e

/-- The five `fromMe` dot-paths (whatsapp.py lines 249-260). -/
def fromMePaths : List String :=
  [ "data.data.messages.0.key.fromMe"
  , "messages.0.key.fromMe"
  , "fromMe"
  , "data.fromMe"
  , "message.fromMe" ]

/-- `_is_from_me`: true iff some path holds the boolean `True`. -/
def isFromMe (e : JValue) : Bool :=
  fromMePaths.any (fun p =>
    match deepGet e p with
    | some (.bool true) => true
    | _ => false)

/-! ### `_extract_sender_and_type` with its raising points

`event.get(key)` is `dict.get` only when the payload is a dict; on a
list/string/number payload it raises `AttributeError`.  The function
reaches such a call (line 289, `for key in ("chatId", ...)`) whenever no
phone was found earlier — which is always the case for a non-dict
payload, since every `_deep_get` on it yields the default. -/

inductive PyErr where
  | attributeError
  | typeError
  deriving DecidableEq

/-- `event.get(key)` — raises on non-dicts. -/
def evGet (e : JValue) (k : String) : Except PyErr (Option JValue) :=
  match e with
  | .obj fs => .ok (jLookup fs k)
  | _ => .error .attributeError

/-- `for p in (...): phone = _norm_phone_from_jid(p); if phone: break`.
A falsy candidate (`None` or `""`) is skipped; we collapse a retained
falsy value to `none`, which is indistinguishable downstream (every use
is a truthiness test). -/
def firstTruthyPhone : List (Option JValue) → Option String
  | [] => none
  | c :: rest =>
    match normPhoneFromJid c with
    | some s => if s ≠ "" then some s else firstTruthyPhone rest
    | none => firstTruthyPhone rest

/-- The fallback loop over top-level `chatId` / `from` / `phone` /
`number` (whatsapp.py lines 287-296); this is the raising site. -/
def step5Go (e : JValue) : List String → Except PyErr (Option String)
  | [] => .ok none
  | k :: rest => do
    let p ← evGet e k
    let cand0 := normPhoneFromJid p
    let cand1 :=
      if strTruthyOpt cand0 then cand0
      else
        match p with
        | some (.str ps) =>
          let d := onlyDigits ps
          if d.length ≥ 10 then some d else none
        | _ => cand0
    if strTruthyOpt cand1 then pure cand1 else step5Go e rest

/-- Media classification (whatsapp.py lines 312-321); `event.get` raises
on non-dicts when the corresponding `_deep_get` was falsy. -/
def mediaType (e : JValue) : Except PyErr String := do
  if jTruthy (optJ (deepGet e "data.data.messages.0.message.imageMessage")) then pure "image"
  else if jTruthy (optJ (← evGet e "image")) then pure "image"
  else if jTruthy (optJ (deepGet e "data.data.messages.0.message.videoMessage")) then pure "video"
  else if jTruthy (optJ (← evGet e "video")) then pure "video"
  else if jTruthy (optJ (deepGet e "data.data.messages.0.message.audioMessage")) then pure "audio"
  else if jTruthy (optJ (← evGet e "audio")) then pure "audio"
  else if jTruthy (optJ (deepGet e "data.data.messages.0.message.documentMessage")) then pure "pdf"
  else if jTruthy (optJ (← evGet e "document")) then pure "pdf"
  else pure "unknown"

structure ExtractOut where
  phone : Option String
  msgType : String
  text : Option String
  deriving DecidableEq

/-- `_extract_sender_and_type` (whatsapp.py lines 262-329). -/
def extractSenderAndType (event : JValue) : Except PyErr ExtractOut := do
  let msg := pyOrJ (optJ (deepGet event "data.data.messages.0"))
      (pyOrJ (optJ (deepGet event "messages.0")) (.obj []))
  let msgGetRemote : Option JValue :=
    match msg with
    | .obj fs => jLookup fs "remoteJid"
    | _ => none
  let phone0 := firstTruthyPhone
    [ deepGet msg "key.remoteJid"
    , msgGetRemote
    , deepGet event "chat.chatId"
    , deepGet event "chat.remoteJid"
    , deepGet event "key.remoteJid" ]
  let isGroup := [deepGet msg "key.remoteJid", msgGetRemote].any (fun m =>
    match m with
    | some (.str s) => containsSub "@g.us" s
    | _ => false)
  let phone1 :=
    if phone0 = none ∧ isGroup then
      firstTruthyPhone [deepGet msg "key.participant", deepGet event "participant", deepGet event "author"]
    else phone0
  let phone2 ←
    match phone1 with
    | none => step5Go event ["chatId", "from", "phone", "number"]
    | some p => pure (some p)
  let phone3 :=
    match phone2 with
    | none =>
      match normPhoneFromJid (deepGet event "chat.id") with
      | some s => if s ≠ "" then some s else none
      | none => none
    | some p => some p
  let phone4 :=
    match phone3 with
    | none => scanForPhone event
    | some p => some p
  let text := extractTextGeneric event
  let mt ← if strTruthyOpt text then pure "text" else mediaType event
  let phoneF :=
    match phone4 with
    | some p => if (onlyDigits p).length < 10 then none else some p
    | none => none
  pure ⟨phoneF, mt, text⟩

/-! ## State inference (`_has_recent_generic`, whatsapp.py lines 342-361)

The query the function tries to build (most recent `Message` of the
participant with `sender = "assistant"` and the given `media_type`,
ordered by `Message.created_at` descending, limit 1) references a
column that does not exist: the `Message` model (db_models.py) names
its timestamp column `timestamp`, and only `User` has `created_at`.
Accessing `Message.created_at` on the declarative class raises
`AttributeError` at query-construction time, inside the function's
`try`; the `except Exception` at line 359 swallows it and returns
`False`.  The timestamp comparison at line 358 is therefore dead code.
We model the raising query explicitly and keep the dead comparison as
its own definition; timestamps are seconds (`Int`), and
`timedelta(minutes=m)` is `60 * m` seconds. -/

structure MsgRow where
  createdAt : Option Int
  deriving DecidableEq

/-- Building a `Message` query ordered by the nonexistent
`Message.created_at` (whatsapp.py lines 344-349, 555-560 and
1039-1044): raises `AttributeError` before any row is fetched. -/
def messageCreatedAtQuery (α : Type) : Except PyErr (Option α) := .error .attributeError

/-- Lines 351-358 of `_has_recent_generic`: the check that would run on
the queried row — dead code in the source, kept for reference.  `False`
when there is no previous message of the kind or its timestamp is
missing, otherwise `(now - last_at) <= timedelta(minutes=minutes)`. -/
def hasRecentBody (last : Option MsgRow) (now : Int) (minutes : Int) : Bool :=
  match last with
  | none => false
  | some row =>
    match row.createdAt with
    | none => false
    | some lastAt => decide (now - lastAt ≤ minutes * 60)

/-- `_has_recent_generic`: the query raises inside the `try`, the
`except` returns `False`, so the check is `False` on every call.  The
`last` input is the row the intended query would have returned; it is
never consulted. -/
def hasRecentGeneric (last : Option MsgRow) (now : Int) (minutes : Int) : Bool :=
  match messageCreatedAtQuery MsgRow with
  | .error _ => false
  | .ok _ => hasRecentBody last now minutes

/-! ## Environment-derived configuration (`whatsapp.py` lines 55-106)

The settings a claim quantifies over are collected in `Env`; all other
env-derived constants are fixed at the value the module computes at load
time with the variable unset (its source default). -/

structure Env where
  menuYes : String
  menuNo : String
  menuText : String
  videoUrl : String
  videoCaption : String
  videoAfterText : String
  strictAssistant : Bool
  deriving DecidableEq

/-- The import-time values with no environment variables set. -/
def defaultEnv : Env :=
  { menuYes := "Sim, pode continuar"
  , menuNo := "Não, encerrar contato"
  , menuText := ""
  , videoUrl := ""
  , videoCaption := ""
  , videoAfterText := ""
  , strictAssistant := false }

def LUNA_MENU_FOOTER : String := "Escolha uma das opções abaixo"

def LUNA_END_TEXT : String := ""

def HANDOFF_CONSULTOR_NAME : String := "nosso consultor criativo"

def HANDOFF_NOTIFY_NUMBERS : String := ""

def ASK_NAME_TEMPLATE : String := "Para concluir o agendamento: qual nome coloco aqui?"

def NAME_RETRY_TEMPLATE : String := "Desculpe, não entendi. Pode me enviar só o *primeiro nome*?"

/-- `NAME_SAVED_TEMPLATE.format(name=..., consultor=...)` on the default
template. -/
def nameSavedText (name : String) : String :=
  "Obrigado, " ++ name ++ "! Vou te passar para " ++ HANDOFF_CONSULTOR_NAME ++ " agora. 👍"

/-- `HANDOFF_OFFER_TEMPLATE.format(...)` on the default template
(`_offer_text`). -/
def offerText (formato : Option String) : String :=
  let fmt := match formato with | some f => f | none => "o formato desejado"
  "Perfeito, anotei: *" ++ fmt ++ "*. Posso te passar para " ++ HANDOFF_CONSULTOR_NAME ++
    ", que pode mostrar formatos e orçamentos sob medida? Prefere que ele fale agora ou mais tarde?"

def handoffConfirmText : String :=
  "Perfeito! Estou te passando para " ++ HANDOFF_CONSULTOR_NAME ++
    " agora. Ele vai te chamar neste número em instantes. 👍"

def handoffLaterText : String :=
  "Combinado! Aviso " ++ HANDOFF_CONSULTOR_NAME ++
    ". Quando quiser falar **agora**, diga “agora” aqui que eu aciono."

/-- `_build_handoff_text` on the default notify template. -/
def buildHandoffText (name digits last : String) : String :=
  let waLink := if digits ≠ "" then "https://wa.me/" ++ digits else ""
  "Novo lead aguardando contato (Luna — Verbo Vídeo)\nNome: " ++ name ++
    "\nTelefone: +" ++ digits ++ "\nÚltima mensagem: " ++ last ++
    "\nOrigem: WhatsApp\nLink: " ++ waLink

/-! ## Reply classifiers (`whatsapp.py` lines 333-432) -/

def POSITIVE_WORDS : List String :=
  [ "sim", "ok", "okay", "claro", "perfeito", "pode", "pode sim", "pode continuar"
  , "vamos", "bora", "manda", "mande", "envia", "enviar", "segue", "segue sim"
  , "quero", "tenho interesse", "interessa", "top", "show", "positivo", "agora"
  , "mais tarde", "sim pode", "pode mandar", "pode enviar", "pode mostrar" ]

def NEGATIVE_WORDS : List String :=
  ["nao", "não", "nao obrigado", "não obrigado", "pode encerrar", "parar", "cancelar", "encerre"]

def POSITIVE_EMOJIS : List String := ["👍", "👌", "✅", "✔️", "✌️", "🤝"]

/-- `_is_positive_reply`.  Note the emoji test runs on the raw text while
everything else runs on the normalized text, exactly as in the source. -/
def isPositiveReply (env : Env) (text : Option String) : Bool :=
  match text with
  | none => false
  | some t0 =>
    if t0 = "" then false
    else
      let t := pyNormalize t0
      if t = pyNormalize env.menuYes ∨ t = "sim" then true
      else if POSITIVE_WORDS.contains t then true
      else if POSITIVE_EMOJIS.any (fun e => containsSub e t0) then true
      else if containsSub "video" t ∨ containsSub "vídeo" t then true
      else if t = "0" ∨ t = "1" then t = "0"
      else false

/-- `_is_negative_reply`. -/
def isNegativeReply (env : Env) (text : Option String) : Bool :=
  match text with
  | none => false
  | some t0 =>
    if t0 = "" then false
    else
      let t := pyNormalize t0
      if t = pyNormalize env.menuNo ∨ t = "nao" ∨ t = "não" then true
      else if NEGATIVE_WORDS.contains t then true
      else if t = "1" then true
      else false

/-- `_wants_now`. -/
def wantsNow (text : Option String) : Bool :=
  match text with
  | none => false
  | some t0 =>
    if t0 = "" then false
    else
      let t := pyNormalize t0
      containsSub "agora" t ∨ ["sim", "ok", "okay", "claro", "perfeito", "pode", "pode sim"].contains t

/-- `_wants_later`. -/
def wantsLater (text : Option String) : Bool :=
  match text with
  | none => false
  | some t0 =>
    if t0 = "" then false
    else
      let t := pyNormalize t0
      ["mais tarde", "depois", "amanha", "amanhã"].any (fun p => containsSub p t)

def INVITE_PATTERNS : List String :=
  [ "quer ver em 30", "quer ver em 30s", "quer ver em 30 s"
  , "30 seg", "30seg", "30 segundos", "trinta segundos"
  , "posso te mostrar", "posso apresentar um case", "exemplo objetivo"
  , "te mostro em 30", "posso enviar um exemplo", "quer ver um exemplo"
  , "apresentar um case curto" ]

/-- `_looks_like_invite`. -/
def looksLikeInvite (reply : String) : Bool :=
  if reply = "" then false
  else
    let t := pyNormalize reply
    INVITE_PATTERNS.any (fun p => containsSub p t)

def HANDOFF_PATTERNS : List String :=
  [ "vou te colocar em contato"
  , "vou te conectar"
  , "vou te passar para"
  , "encaminharei voce ao nosso consultor"
  , "encaminharei você ao nosso consultor"
  , "encaminhar voce ao consultor"
  , "encaminhar você ao consultor"
  , "colocar voce com um consultor"
  , "colocar você com um consultor"
  , "te coloco com nosso consultor"
  , "vou conectar voce com um especialista"
  , "vou conectar você com um especialista"
  , "encaminhando para o consultor"
  , "enviar_msg" ]

/-- `_looks_like_handoff`. -/
def looksLikeHandoff (reply : String) : Bool :=
  if reply = "" then false
  else
    let t := pyNormalize reply
    HANDOFF_PATTERNS.any (fun p => containsSub p t)

/-! ## Tool-tag parsing (`_TOOL_TAG_RE = #tools?\s*\(\s*([^)]+)\)`, re.I) -/

/-- Case-insensitive literal match; returns the remainder. -/
def litAtCI : List Char → List Char → Option (List Char)
  | [], l => some l
  | _ :: _, [] => none
  | p :: ps, c :: cs => if lowerChar c = p then litAtCI ps cs else none

/-- Try to match the tool-tag pattern at the head of `l`; returns the
captured group and the remainder after the closing parenthesis.  The
`\s*([^)]+)` capture resolves (after backtracking) to: the inner text
with its leading whitespace removed, or its single last character when
the inner text is all whitespace. -/
def tagMatchFrom (l : List Char) : Option (List Char × List Char) :=
  match l with
  | '#' :: r1 =>
    match litAtCI ['t', 'o', 'o', 'l'] r1 with
    | none => none
    | some r2 =>
      let r3 := match r2 with
        | c :: rest => if lowerChar c = 's' then rest else r2
        | [] => r2
      match r3.dropWhile isWsChar with
      | '(' :: r5 =>
        let inner := r5.takeWhile (fun c => c ≠ ')')
        match r5.dropWhile (fun c => c ≠ ')') with
        | ')' :: rest =>
          if inner.isEmpty then none
          else
            let g := inner.dropWhile isWsChar
            let group := if g.isEmpty then
                (match inner.reverse with
                 | c :: _ => [c]
                 | [] => []) else g
            some (group, rest)
        | _ => none
      | _ => none
  | _ => none

/-- `_TOOL_TAG_RE.search`: leftmost match, returning the group. -/
def findToolTagGroup : List Char → Option (List Char)
  | [] => none
  | c :: cs =>
    match tagMatchFrom (c :: cs) with
    | some (g, _) => some g
    | none => findToolTagGroup cs

/-- `_TOOL_TAG_RE.sub("", ...)`: remove every (non-overlapping, left to
right) match.  Fuel is the list length; each step consumes at least one
character, so the fuel never runs out. -/
def stripTagsGo : Nat → List Char → List Char
  | 0, l => l
  | _ + 1, [] => []
  | n + 1, c :: cs =>
    match tagMatchFrom (c :: cs) with
    | some (_, rest) => stripTagsGo n rest
    | none => c :: stripTagsGo n cs

/-- `_strip_tool_tags`. -/
def stripToolTags (text : Option String) : String :=
  match text with
  | none => ""
  | some s => if s = "" then "" else pyStrip ⟨stripTagsGo s.data.length s.data⟩

def isSepChar (c : Char) : Bool := c = ',' ∨ isWsChar c

/-- `re.split(r"[,\s]+", content)` followed by dropping empty pieces
(the source skips falsy parts): the maximal runs of non-separator
characters. -/
def splitTokensGo (acc : List Char) : List Char → List (List Char)
  | [] => if acc.isEmpty then [] else [acc.reverse]
  | c :: cs =>
    if isSepChar c then
      if acc.isEmpty then splitTokensGo [] cs else acc.reverse :: splitTokensGo [] cs
    else splitTokensGo (c :: acc) cs

structure ToolHints where
  menu : Bool
  video : Bool
  handoff : Bool
  deriving DecidableEq

/-- `_parse_tools_from_tags`. -/
def parseToolsFromTags (reply : String) : ToolHints :=
  if reply = "" then ⟨false, false, false⟩
  else
    match findToolTagGroup reply.data with
    | none => ⟨false, false, false⟩
    | some g =>
      let toks := (splitTokensGo [] g).map (fun t => pyLower (pyStrip ⟨t⟩))
      toks.foldl (fun h p =>
        if p = "" then h
        else if ["enviar_caixinha_interesse", "menu", "caixinha"].contains p then { h with menu := true }
        else if ["enviar_video", "video", "vídeo"].contains p then { h with video := true }
        else if ["enviar_msg", "handoff", "transfer"].contains p then { h with handoff := true }
        else h) ⟨false, false, false⟩

/-- `_parse_tool_hints`: `(wants_menu, wants_video, wants_handoff)`. -/
def parseToolHints (reply : String) : ToolHints :=
  let tags := parseToolsFromTags reply
  { menu := tags.menu ∨ containsSub "enviar_caixinha_interesse" (pyLower reply) ∨ looksLikeInvite reply
  , video := tags.video ∨ containsSub "enviar_video" (pyLower reply)
  , handoff := tags.handoff ∨ looksLikeHandoff reply }

/-! ## Name extraction and sanitising (`whatsapp.py` lines 614-678) -/

def STOPWORDS_GREET : List String :=
  [ "oi", "olá", "ola", "blz", "beleza", "eai", "opa", "oie", "boa", "bom", "tarde"
  , "noite", "dia", "tudo", "bem", "td", "tmj", "valeu", "vlw", "obg", "obrigado"
  , "obrigada", "kkk", "haha", "rs", "agora", "depois", "mais", "tarde", "sim"
  , "nao", "não", "okay", "ok", "okey" ]

/-- The letter class `[A-Za-zÀ-ÖØ-öø-ÿ]` of `_tokenize_words`. -/
def isNameLetter (c : Char) : Bool :=
  ('A' ≤ c ∧ c ≤ 'Z') ∨ ('a' ≤ c ∧ c ≤ 'z') ∨
  (0xC0 ≤ c.toNat ∧ c.toNat ≤ 0xD6) ∨ (0xD8 ≤ c.toNat ∧ c.toNat ≤ 0xF6) ∨
  (0xF8 ≤ c.toNat ∧ c.toNat ≤ 0xFF)

def tokenizeGo (acc : List Char) : List Char → List (List Char)
  | [] => if acc.isEmpty then [] else [acc.reverse]
  | c :: cs =>
    if isNameLetter c then tokenizeGo (c :: acc) cs
    else if acc.isEmpty then tokenizeGo [] cs
    else acc.reverse :: tokenizeGo [] cs

/-- `_tokenize_words`: the maximal runs of letters. -/
def tokenizeWords (s : String) : List String :=
  (tokenizeGo [] s.data).map (fun l => ⟨l⟩)

/-- Python `str.title()`: uppercase a letter that follows a non-letter,
lowercase the rest ("cased" approximated by the same letter ranges). -/
def titleGo (prevCased : Bool) : List Char → List Char
  | [] => []
  | c :: cs =>
    if isNameLetter c then (if prevCased then lowerChar c else upperChar c) :: titleGo true cs
    else c :: titleGo false cs

def pyTitle (s : String) : String := ⟨titleGo false s.data⟩

/-- `_sanitize_name`. -/
def sanitizeName (raw : String) : Option String :=
  if raw = "" then none
  else
    let tokens := tokenizeWords raw
    if tokens.isEmpty then none
    else
      let tokens := tokens.filter (fun t => ¬ STOPWORDS_GREET.contains (pyNormalize t))
      if tokens.isEmpty then none
      else
        let tokens := tokens.take 2
        let name := pyTitle (String.intercalate " " tokens)
        if name.length < 3 ∨ name.data.any (fun c => c.isDigit) ∨
            name.data.any (fun c => c ∈ ['?', '!', '@']) then none
        else some name

/-- The group character class of `_NAME_EXPLICIT_RE`:
letters, apostrophe, acute/grave accents, circumflex, tilde, hyphen,
space. -/
def isNameGroupChar (c : Char) : Bool :=
  isNameLetter c ∨ c ∈ [Char.ofNat 39, '´', Char.ofNat 96, '^', '~', '-', ' ']

def wsPlus (l : List Char) : Option (List Char) :=
  match l with
  | c :: cs => if isWsChar c then some ((c :: cs).dropWhile isWsChar) else none
  | [] => none

/-- One of the lead-in alternatives of `_NAME_EXPLICIT_RE`
(`meu\s+nome\s*(?:é|e) | nome\s*: | sou | me\s+chamo | aqui\s*(?:é|e)`),
matched case-insensitively at the head of `l`; returns the remainder. -/
def nameAltAt (l : List Char) : Option (List Char) :=
  (do
    let r ← litAtCI ['m', 'e', 'u'] l
    let r ← wsPlus r
    let r ← litAtCI ['n', 'o', 'm', 'e'] r
    let r := r.dropWhile isWsChar
    match r with
    | c :: rest => if lowerChar c = 'é' ∨ lowerChar c = 'e' then some rest else none
    | [] => none) <|>
  (do
    let r ← litAtCI ['n', 'o', 'm', 'e'] l
    let r := r.dropWhile isWsChar
    match r with
    | ':' :: rest => some rest
    | _ => none) <|>
  litAtCI ['s', 'o', 'u'] l <|>
  (do
    let r ← litAtCI ['m', 'e'] l
    let r ← wsPlus r
    litAtCI ['c', 'h', 'a', 'm', 'o'] r) <|>
  (do
    let r ← litAtCI ['a', 'q', 'u', 'i'] l
    let r := r.dropWhile isWsChar
    match r with
    | c :: rest => if lowerChar c = 'é' ∨ lowerChar c = 'e' then some rest else none
    | [] => none)

/-- Backtracking of `\s+([class]{2,})`: the greedy `\s+` takes `k`
whitespace characters (largest `k` first); the group is then the maximal
class run and must have ≥ 2 characters. -/
def groupTryK (l : List Char) : Nat → Option (List Char)
  | 0 => none
  | k + 1 =>
    let g := (l.drop (k + 1)).takeWhile isNameGroupChar
    if g.length ≥ 2 then some g else groupTryK l k

def nameMatchAt (l : List Char) : Option (List Char) :=
  match nameAltAt l with
  | none => none
  | some r =>
    let m := (r.takeWhile isWsChar).length
    if m = 0 then none else groupTryK r m

/-- `_NAME_EXPLICIT_RE.search`: leftmost match, returning group 1. -/
def nameSearch : List Char → Option (List Char)
  | [] => none
  | c :: cs =>
    match nameMatchAt (c :: cs) with
    | some g => some g
    | none => nameSearch cs

/-- `_extract_name_from_text`. -/
def extractNameFromText (text : Option String) (inRequest : Bool) : Option String :=
  match text with
  | none => none
  | some t =>
    if t = "" then none
    else
      match nameSearch t.data with
      | some g => sanitizeName ⟨g⟩
      | none => if inRequest then sanitizeName t else none

/-- `_pushname_candidate` applied to the raw `pushName` payload value;
a truthy non-string would make `re.findall` raise. -/
def pushnameCandidate (pushName : JValue) : Except PyErr (Option String) :=
  match (if jTruthy pushName then pushName else .str "") with
  | .str s =>
    match sanitizeName s with
    | none => .ok none
    | some name =>
      let toks := (tokenizeWords name).map pyNormalize
      if toks.isEmpty then .ok none
      else if toks.any (fun t => STOPWORDS_GREET.contains t) then .ok none
      else if toks.length = 1 ∧ (toks.headD "").length ≤ 2 then .ok none
      else .ok (some name)
  | _ => .error .typeError

/-! ## Light NLU for the requested format (`whatsapp.py` lines 436-470)

Each regex of `_FORMAT_PATTERNS` is modelled by a dedicated scanner;
`\b` is the usual word boundary with `\w ≈` alphanumerics, underscore
and the accented letter ranges. -/

def isWordCh (c : Char) : Bool := c.isAlphanum ∨ c = '_' ∨ isNameLetter c

def boundaryB : Option Char → Bool
  | none => true
  | some c => ¬isWordCh c

def boundaryAfterL : List Char → Bool
  | [] => true
  | c :: _ => ¬isWordCh c

/-- Scan for a position with a word boundary before it at which `f`
matches. -/
def scanWithBoundary (f : List Char → Bool) (prev : Option Char) : List Char → Bool
  | [] => false
  | c :: cs => (boundaryB prev && f (c :: cs)) || scanWithBoundary f (some c) cs

/-- Plain substring-position scan (no boundary). -/
def scanAny (f : List Char → Bool) : List Char → Bool
  | [] => f []
  | c :: cs => f (c :: cs) || scanAny f cs

/-- `\bWORD(SUFFIX)?\b` occurrence test. -/
def bddAt (w : List Char) (l : List Char) : Bool :=
  listStartsWith w l && boundaryAfterL (l.drop w.length)

def bddWord (w : String) (t : String) : Bool :=
  scanWithBoundary (bddAt w.data) none t.data

def bddWordSuf (w : String) (sufs : List String) (t : String) : Bool :=
  sufs.any (fun sf => bddWord (w ++ sf) t)

def wsDrop (l : List Char) : List Char := l.dropWhile isWsChar

/-- `\b3\s*(dash or slash)?\s*d\b` at a position. -/
def p3dAt (l : List Char) : Bool :=
  match l with
  | '3' :: r1 =>
    let r2 := wsDrop r1
    let r3 := match r2 with
      | c :: rest => if c = '-' ∨ c = '/' then wsDrop rest else r2
      | [] => r2
    match r3 with
    | 'd' :: rest => boundaryAfterL rest
    | _ => false
  | _ => false

/-- `\b3d\s*ia\b` at a position. -/
def p3dIaAt (l : List Char) : Bool :=
  match l with
  | '3' :: 'd' :: r =>
    let r2 := wsDrop r
    listStartsWith ['i', 'a'] r2 && boundaryAfterL (r2.drop 2)
  | _ => false

/-- `\bia\s*3d\b` at a position. -/
def pIa3dAt (l : List Char) : Bool :=
  match l with
  | 'i' :: 'a' :: r =>
    let r2 := wsDrop r
    listStartsWith ['3', 'd'] r2 && boundaryAfterL (r2.drop 2)
  | _ => false

/-- `animac(?:ao|ão)\s*3\s*(dash or slash)?\s*d` at a position. -/
def animAt (l : List Char) : Bool :=
  if listStartsWith ['a', 'n', 'i', 'm', 'a', 'c'] l then
    let r := l.drop 6
    let r2? : Option (List Char) :=
      if listStartsWith ['a', 'o'] r then some (r.drop 2)
      else if listStartsWith ['ã', 'o'] r then some (r.drop 2)
      else none
    match r2? with
    | none => false
    | some r3 =>
      match wsDrop r3 with
      | '3' :: r5 =>
        let r6 := wsDrop r5
        let r7 := match r6 with
          | c :: rest => if c = '-' ∨ c = '/' then wsDrop rest else r6
          | [] => r6
        match r7 with
        | 'd' :: _ => true
        | _ => false
      | _ => false
  else false

/-- `video\s*de\s*produto` at a position. -/
def videoDeProdutoAt (l : List Char) : Bool :=
  if listStartsWith ['v', 'i', 'd', 'e', 'o'] l then
    let r := wsDrop (l.drop 5)
    if listStartsWith ['d', 'e'] r then
      listStartsWith ['p', 'r', 'o', 'd', 'u', 't', 'o'] (wsDrop (r.drop 2))
    else false
  else false

def litAt (pat : List Char) (l : List Char) : Option (List Char) :=
  if listStartsWith pat l then some (l.drop pat.length) else none

/-- An alternative of `_PREFIX_NOISE` matched at the start, requiring at
least one following whitespace character, which is consumed greedily. -/
def altWithWs (rem? : Option (List Char)) : Option (List Char) :=
  match rem? with
  | some (c :: rest) => if isWsChar c then some ((c :: rest).dropWhile isWsChar) else none
  | _ => none

def podeSerAt (l : List Char) : Option (List Char) :=
  match litAt ['p', 'o', 'd', 'e'] l with
  | some r => litAt ['s', 'e', 'r'] (wsDrop r)
  | none => none

def achoQueAt (l : List Char) : Option (List Char) :=
  match litAt ['a', 'c', 'h', 'o'] l with
  | some r => litAt ['q', 'u', 'e'] (wsDrop r)
  | none => none

/-- `re.sub(rf"^{_PREFIX_NOISE}", "", t)`: drop one leading filler word
(`era|eh|é|foi|quero|queria|pode\s*ser|seria|talvez|acho\s*que`)
together with the following whitespace; alternatives are tried in the
pattern order. -/
def dropLeadingNoiseL (l : List Char) : List Char :=
  (altWithWs (litAt ['e', 'r', 'a'] l) <|>
   altWithWs (litAt ['e', 'h'] l) <|>
   altWithWs (litAt ['é'] l) <|>
   altWithWs (litAt ['f', 'o', 'i'] l) <|>
   altWithWs (litAt ['q', 'u', 'e', 'r', 'o'] l) <|>
   altWithWs (litAt ['q', 'u', 'e', 'r', 'i', 'a'] l) <|>
   altWithWs (podeSerAt l) <|>
   altWithWs (litAt ['s', 'e', 'r', 'i', 'a'] l) <|>
   altWithWs (litAt ['t', 'a', 'l', 'v', 'e', 'z'] l) <|>
   altWithWs (achoQueAt l)).getD l

/-- `_extract_formato`: the patterns are checked in the insertion order
of `_FORMAT_PATTERNS` (the second `institucional` regex of the source is
the same word and is kept as the duplicated test). -/
def extractFormato (texto : Option String) : Option String :=
  match texto with
  | none => none
  | some t0 =>
    if t0 = "" then none
    else
      let t : String := ⟨dropLeadingNoiseL (pyNormalize t0).data⟩
      if scanWithBoundary p3dAt none t.data ∨ scanWithBoundary p3dIaAt none t.data ∨
          scanWithBoundary pIa3dAt none t.data ∨ scanAny animAt t.data then some "3d/ia"
      else if bddWord "institucional" t ∨ bddWord "institucional" t then some "institucional"
      else if bddWordSuf "produto" ["s", ""] t ∨ scanAny videoDeProdutoAt t.data then some "produto"
      else if bddWord "educativo" t ∨ bddWordSuf "aula" ["s", ""] t ∨
          bddWordSuf "tutorial" ["es", ""] t ∨ bddWord "treinamento" t then some "educativo"
      else if bddWordSuf "convite" ["s", ""] t then some "convite"
      else if bddWordSuf "homenagem" ["s", ""] t ∨ bddWord "tributo" t then some "homenagem"
      else none

/-- `_looks_like_format_question`. -/
def looksLikeFormatQuestion (texto : Option String) : Bool :=
  match texto with
  | none => false
  | some t0 =>
    if t0 = "" then false
    else
      let t := pyNormalize t0
      if containsSub "qual formato" t ∨ containsSub "formato te interessa" t ∨
          containsSub "formato voce" t ∨ containsSub "formato você" t then true
      else if (containsSub "3d" t ∨ containsSub "institucional" t ∨ containsSub "educativo" t ∨
          containsSub "produto" t ∨ containsSub "convite" t ∨ containsSub "homenagem" t) ∧
          containsSub "formato" t then true
      else false

/-! ## Guard-rail dispatcher (`_process_message_async`, whatsapp.py lines 759-964)

The function is modelled from the point after the user row and the five
`_has_recent_*` flags have been read; those reads are the `DState`
inputs, and `computedState` below instantiates them with what the
source actually computes (all flags `False`, since `_has_recent_generic`
is constantly `False`).  Gateway sends and database writes become `Act`
effects; the
call to `ask_assistant` becomes the `callAI` effect whose answer is the
`aiReply` oracle.  Adapter sends are modelled as succeeding (the
source's `try/except` around each send only logs). -/

inductive Act where
  | sendText (phone content : String)
  | sendMedia (phone url caption : String)
  | sendMenuMsg (phone text yes no : String) (footer : Option String)
  | persistMsg (sender mediaType content : String)
  | callAI (input : String)
  | setUserName (name : String)
  deriving DecidableEq

/-- Inputs summarising the database state the dispatcher reads. -/
structure DState where
  menuRecent : Bool
  videoRecent : Bool
  handoffRecent : Bool
  handoffOfferRecent : Bool
  nameRequestRecent : Bool
  userName : Option String
  lastUserText : Option String
  deriving DecidableEq

def apos : String := String.singleton (Char.ofNat 39)

/-- `_enviar_menu`: skipped entirely when `LUNA_MENU_TEXT` is empty. -/
def enviarMenu (env : Env) (phone : String) : List Act :=
  if env.menuText = "" then []
  else
    [ .sendMenuMsg phone env.menuText
        (if env.menuYes ≠ "" then env.menuYes else "Sim")
        (if env.menuNo ≠ "" then env.menuNo else "Não")
        (if LUNA_MENU_FOOTER ≠ "" then some LUNA_MENU_FOOTER else none)
    , .persistMsg "assistant" "menu" env.menuText ]

/-- `_enviar_video` (success path): the apology text when no URL is
configured, otherwise the media send, its `video` event, and the
optional after-text. -/
def enviarVideo (env : Env) (phone : String) : List Act :=
  if env.videoUrl = "" then
    [.sendText phone "Desculpe, não consigo mostrar vídeos no momento."]
  else
    [ .sendMedia phone env.videoUrl env.videoCaption
    , .persistMsg "assistant" "video" env.videoUrl ] ++
    (if env.videoAfterText ≠ "" then
       [.sendText phone env.videoAfterText, .persistMsg "assistant" "text" env.videoAfterText]
     else [])

def isNotifySep (c : Char) : Bool := c = ',' ∨ c = ';' ∨ isWsChar c

def notifySplitGo (acc : List Char) : List Char → List (List Char)
  | [] => if acc.isEmpty then [] else [acc.reverse]
  | c :: cs =>
    if isNotifySep c then
      if acc.isEmpty then notifySplitGo [] cs else acc.reverse :: notifySplitGo [] cs
    else notifySplitGo (c :: acc) cs

/-- `_parse_notify_numbers`: split on commas/semicolons/whitespace, keep
the digit strings. -/
def parseNotifyNumbers (raw : String) : List String :=
  ((notifySplitGo [] raw.data).map (fun t => onlyDigits ⟨t⟩)).filter (fun d => d ≠ "")

/-- `_notify_consultants`: with no configured numbers it returns before
sending or persisting anything. -/
def notifyConsultantsEffs (userName : Option String) (phone : String)
    (userText lastUserText : Option String) : List Act :=
  let targets := parseNotifyNumbers HANDOFF_NOTIFY_NUMBERS
  if targets.isEmpty then []
  else
    let lastC := pyStrip (userText.getD "")
    let last := if lastC ≠ "" then some lastC else lastUserText
    let nameS := pyStrip (userName.getD "")
    let lastS := pyStrip (last.getD "")
    let alert := buildHandoffText (if nameS ≠ "" then nameS else "—") (onlyDigits phone)
        (if lastS ≠ "" then lastS else "—")
    targets.map (fun t => Act.sendText t alert) ++ [Act.persistMsg "assistant" "handoff" alert]

/-- `_send_handoff_offer`. -/
def sendHandoffOfferEffs (phone : String) (formato : Option String) : List Act :=
  [.sendText phone (offerText formato), .persistMsg "assistant" "handoff_offer" (offerText formato)]

def endEffs (phone : String) : List Act :=
  let endText := if LUNA_END_TEXT ≠ "" then LUNA_END_TEXT else "Tudo bem! Se precisar depois, estou por aqui. 🌟"
  [.sendText phone endText, .persistMsg "assistant" "text" endText]

def fileAckText : String := "Arquivo recebido com sucesso. Já estou processando! ✅"

/-- Step 1 of the dispatcher: forward to the AI with the state-context
prefix, then apply the post-AI guards 1.a-1.f in source order. -/
def step1AI (env : Env) (st : DState) (phone : String) (text : Option String)
    (aiReply : String) : List Act :=
  let digits := onlyDigits phone
  let meta := "(meta: phone_do_lead:+" ++ digits ++
      ". Ao chamar tools use este valor no parâmetro " ++ apos ++ "phone" ++ apos ++ ".) "
  let userFormato := extractFormato text
  let tRaw := text.getD ""
  let pfx :=
    if st.videoRecent then
      "Contexto: o lead acabou de receber o vídeo demonstrativo da Verbo Vídeo. Prossiga com a etapa seguinte do fluxo (pós-vídeo). Mensagem do lead: "
    else if st.menuRecent then
      let tnorm := pyNormalize tRaw
      if tnorm = pyNormalize env.menuYes ∨ tnorm = "sim" ∨ containsSub "sim" tnorm then
        "Contexto: o lead respondeu SIM na caixinha de interesse. Mensagem do lead: "
      else if tnorm = pyNormalize env.menuNo ∨ tnorm = "nao" ∨ tnorm = "não" ∨
          containsSub "nao" tnorm ∨ containsSub "não" tnorm then
        "Contexto: o lead respondeu NÃO na caixinha de interesse. Mensagem do lead: "
      else
        "Contexto: foi enviada uma caixinha de interesse ao lead. Mensagem do lead: "
    else ""
  let aiInput0 := pyStrip (meta ++ pfx ++ tRaw)
  let aiInput :=
    match userFormato with
    | some f => aiInput0 ++ " [contexto_formato: o lead já indicou o formato " ++ apos ++ f ++
        apos ++ ". Não repita a pergunta de formato; confirme e avance.]"
    | none => aiInput0
  let raw := aiReply
  let reply2 :=
    if userFormato.isSome ∧ looksLikeFormatQuestion (some raw) then
      "Perfeito, anotei: **" ++ userFormato.getD "" ++ "**. Vamos avançar para os próximos passos?"
    else raw
  let hints := parseToolHints raw
  if (hints.menu ∨ looksLikeInvite raw) ∧ ¬st.menuRecent then
    .callAI aiInput :: enviarMenu env phone
  else if hints.video ∧ ¬st.videoRecent then
    .callAI aiInput :: enviarVideo env phone
  else if (hints.handoff ∨ userFormato.isSome) ∧ ¬(st.handoffRecent ∨ st.handoffOfferRecent) then
    .callAI aiInput :: sendHandoffOfferEffs phone userFormato
  else if ¬env.strictAssistant ∧ isPositiveReply env text ∧ st.menuRecent ∧ ¬st.videoRecent then
    .callAI aiInput :: enviarVideo env phone
  else if st.menuRecent ∧ looksLikeInvite raw then
    [.callAI aiInput]
  else
    let clean := let c := stripToolTags (some reply2); if c = "" then "Certo!" else c
    [.callAI aiInput, .sendText phone clean, .persistMsg "assistant" "text" clean]

/-- Steps 1 and 2: text goes to the AI, anything else gets the file
acknowledgement. -/
def stepTail (env : Env) (st : DState) (phone msgType : String) (text : Option String)
    (aiReply : String) : List Act :=
  if msgType = "text" ∧ strTruthyOpt text then step1AI env st phone text aiReply
  else [.sendText phone fileAckText, .persistMsg "assistant" "text" fileAckText]

/-- Step 0.3: replies to an outstanding handoff offer (`nameNow` is the
user name after the step-0.2 update). -/
def step03Offer (env : Env) (st : DState) (nameNow : Option String) (phone msgType : String)
    (text : Option String) (aiReply : String) : List Act :=
  if msgType = "text" ∧ strTruthyOpt text ∧ st.handoffOfferRecent ∧ ¬st.handoffRecent then
    if wantsNow text then
      if pyStrip (nameNow.getD "") = "" then
        [.sendText phone ASK_NAME_TEMPLATE, .persistMsg "assistant" "name_request" ASK_NAME_TEMPLATE]
      else
        [.sendText phone handoffConfirmText, .persistMsg "assistant" "text" handoffConfirmText] ++
          notifyConsultantsEffs nameNow phone text st.lastUserText
    else if wantsLater text then
      [.sendText phone handoffLaterText, .persistMsg "assistant" "text" handoffLaterText]
    else stepTail env st phone msgType text aiReply
  else stepTail env st phone msgType text aiReply

/-- Step 0.2: auto-capture of an explicitly announced name (does not
return; updates the name seen by later steps). -/
def step02Auto (env : Env) (st : DState) (phone msgType : String) (text : Option String)
    (aiReply : String) : List Act :=
  if msgType = "text" ∧ strTruthyOpt text ∧ pyStrip (st.userName.getD "") = "" then
    match extractNameFromText text false with
    | some cand =>
      [.setUserName cand, .persistMsg "assistant" "name_captured" ("[name_captured:" ++ cand ++ "]")] ++
        step03Offer env st (some cand) phone msgType text aiReply
    | none => step03Offer env st st.userName phone msgType text aiReply
  else step03Offer env st st.userName phone msgType text aiReply

/-- Step 0.1: a name was requested recently. -/
def step01Name (env : Env) (st : DState) (phone msgType : String) (text : Option String)
    (aiReply : String) : List Act :=
  if msgType = "text" ∧ strTruthyOpt text ∧ st.nameRequestRecent ∧ ¬st.handoffRecent then
    match extractNameFromText text true with
    | some cand =>
      [ .setUserName cand
      , .sendText phone (nameSavedText cand)
      , .persistMsg "assistant" "text" (nameSavedText cand) ] ++
        notifyConsultantsEffs (some cand) phone text st.lastUserText
    | none =>
      [.sendText phone NAME_RETRY_TEMPLATE, .persistMsg "assistant" "name_request" NAME_RETRY_TEMPLATE]
  else step02Auto env st phone msgType text aiReply

/-- `_process_message_async` decision core (step 0 onwards). -/
def processMessage (env : Env) (st : DState) (phone msgType : String) (text : Option String)
    (aiReply : String) : List Act :=
  if msgType = "text" ∧ strTruthyOpt text ∧ st.menuRecent then
    if isNegativeReply env text then endEffs phone
    else if isPositiveReply env text ∧ ¬st.videoRecent then enviarVideo env phone
    else step01Name env st phone msgType text aiReply
  else step01Name env st phone msgType text aiReply

/-- The `DState` that `_process_message_async` actually computes (lines
782-786): every `_has_recent_*` flag goes through `_has_recent_generic`
with `minutes=30` and is therefore `False` on every call, and
`_get_last_user_text` (lines 553-565) has the same dead
`Message.created_at` query and always yields `None`.  The `last*`
inputs are the rows the intended queries would have returned. -/
def computedState (lastMenu lastVideo lastHandoff lastOffer lastNameReq : Option MsgRow)
    (now : Int) (userName : Option String) : DState :=
  { menuRecent := hasRecentGeneric lastMenu now 30
  , videoRecent := hasRecentGeneric lastVideo now 30
  , handoffRecent := hasRecentGeneric lastHandoff now 30
  , handoffOfferRecent := hasRecentGeneric lastOffer now 30
  , nameRequestRecent := hasRecentGeneric lastNameReq now 30
  , userName := userName
  , lastUserText := none }

/-! ## Webhook handler (`webhook_post`, whatsapp.py lines 970-1033, and
`_is_probably_duplicate`, lines 1036-1060)

Database reads are oracles: `userLookup` is the `User` row matched by
phone (`some name` when it exists), `lastInbound` the most recent
inbound `Message` of that user.  Effects record the writes and the
detached task. -/

/-- The most recent inbound message row, as `_is_probably_duplicate`
reads it. -/
structure LastRow where
  content : Option String
  mediaType : String
  createdAt : Int
  deriving DecidableEq

/-- Lines 1046-1057 of `_is_probably_duplicate`, as they would run on
the queried row: same stripped content, same type, and
`(now - last_at) <= timedelta(seconds=window_seconds)` — dead code in
the source, kept for reference. -/
def isProbablyDuplicateBody (last : Option LastRow) (text : Option String) (msgType : String)
    (now : Int) (windowSeconds : Int) : Bool :=
  match last with
  | none => false
  | some row =>
    let sameText := pyStrip (row.content.getD "") = pyStrip (text.getD "")
    let sameType := row.mediaType = msgType
    let recent := now - row.createdAt ≤ windowSeconds
    sameText ∧ sameType ∧ recent

/-- `_is_probably_duplicate`: its query also orders by the nonexistent
`Message.created_at` (line 1041), the `AttributeError` is swallowed by
the `except` at line 1058, and the function returns `False` on every
call — no inbound is ever deduplicated. -/
def isProbablyDuplicate (last : Option LastRow) (text : Option String) (msgType : String)
    (now : Int) (windowSeconds : Int) : Bool :=
  match messageCreatedAtQuery LastRow with
  | .error _ => false
  | .ok _ => isProbablyDuplicateBody last text msgType now windowSeconds

inductive WEff where
  | createUser (phone : String) (name : Option String)
  | updateName (name : String)
  | persistInbound (content : Option String) (mediaType : String)
  | startTask (phone msgType : String) (text : Option String)
  deriving DecidableEq

inductive WOut where
  | forbidden
  | resp (status : Nat) (note : String) (effs : List WEff)
  | err (e : PyErr)
  deriving DecidableEq

/-- `push_name = _deep_get(payload, "data.data.messages.0.pushName") or
_deep_get(payload, "messages.0.pushName")`. -/
def pushNameOf (p : JValue) : JValue :=
  pyOrJ (optJ (deepGet p "data.data.messages.0.pushName")) (optJ (deepGet p "messages.0.pushName"))

/-- The user create/update block of `webhook_post` (lines 1001-1014).
`userLookup` is `some name` when a user row exists. -/
def userStep (p : JValue) (phone : String) (userLookup : Option (Option String)) :
    Except PyErr (List WEff) :=
  match userLookup with
  | none => do
    let pn ← pushnameCandidate (pushNameOf p)
    pure [.createUser phone pn]
  | some name0 =>
    if pyStrip (name0.getD "") = "" then do
      let pn ← pushnameCandidate (pushNameOf p)
      match pn with
      | some n => pure [.updateName n]
      | none => pure []
    else pure []

/-- `webhook_post`.  `payload = none` models a JSON parse failure.  The
`push_name` forwarded to the background task is derived from the
payload and is omitted from the `startTask` effect. -/
def webhookPost (expected : String) (headerTok qTok qHub : Option String)
    (payload : Option JValue) (userLookup : Option (Option String))
    (lastInbound : Option LastRow) (now : Int) : WOut :=
  if authRejects expected headerTok qTok qHub then .forbidden
  else
    match payload with
    | none => .resp 200 "invalid JSON" []
    | some p =>
      if isFromMe p then .resp 200 "from_me" []
      else
        match extractSenderAndType p with
        | .error e => .err e
        | .ok info =>
          match info.phone with
          | none => .resp 200 "no phone" []
          | some phone =>
            match userStep p phone userLookup with
            | .error e => .err e
            | .ok ueffs =>
              if isProbablyDuplicate lastInbound
                  (if info.msgType = "text" then info.text else none) info.msgType now 5 then
                .resp 200 "duplicate_dropped" ueffs
              else
                .resp 200 "received" (ueffs ++
                  [ .persistInbound (if info.msgType = "text" then info.text else none) info.msgType
                  , .startTask phone info.msgType info.text ])

/-! ## AI run lifecycle (`ask_assistant`, openai_service.py lines 314-411)

The provider is an oracle: `appendOk` lists what each append attempt
would return (the source makes exactly one), `createOk` the run
creation, `polls` the successive `runs.retrieve` responses, `msgsRes`
the final message listing.  Every HTTP call and every outbound-adapter
call becomes an `AEff` effect; `statelessCompletion` is the
plain single-turn completion the specification describes — the module
has no such call, so no code path emits it.  `AskOut.pending` means the
loop is still running after consuming the whole response script. -/

def OS_LUNA_MENU_YES : String := "Sim, pode continuar"
def OS_LUNA_MENU_NO : String := "Não, encerrar contato"
def OS_LUNA_MENU_TEXT : String := ""
def OS_LUNA_MENU_FOOTER : String := "Escolha uma das opções abaixo"
def OS_LUNA_VIDEO_URL : String := ""
def OS_LUNA_VIDEO_CAPTION : String := ""
def OS_HANDOFF_NOTIFY_NUMBERS : String := ""

inductive ToolResultM where
  | sentOk
  | sentTargets (ts : List String)
  | errMsg (m : String)
  deriving DecidableEq

structure ToolCallRec where
  tcId : Option String
  fname : String
  fargs : JValue

inductive AEff where
  | apiAppend (text : String)
  | apiCreateRun
  | apiRetrieveRun
  | gwText (phone content : String)
  | gwMedia (phone url caption : String) (mimeType : Option String)
  | gwMenu (phone text yes no : String) (footer : Option String)
  | apiSubmit (outs : List (Option String × ToolResultM))
  | apiListMsgs
  | statelessCompletion
  deriving DecidableEq

mutual

/-- Python `str(x)` far enough for `_only_digits(str(x))`: containers
are rendered structurally (their digits are exactly Python's). -/
def pyStrJ : JValue → String
  | .null => "None"
  | .bool true => "True"
  | .bool false => "False"
  | .num n => toString n
  | .str s => s
  | .arr xs => "[" ++ pyStrList xs ++ "]"
  | .obj fs => "\x7b" ++ pyStrFields fs ++ "\x7d"

def pyStrList : List JValue → String
  | [] => ""
  | [v] => pyStrJ v
  | v :: rest => pyStrJ v ++ ", " ++ pyStrList rest

def pyStrFields : List (String × JValue) → String
  | [] => ""
  | [(k, v)] => k ++ ": " ++ pyStrJ v
  | (k, v) :: rest => k ++ ": " ++ pyStrJ v ++ ", " ++ pyStrFields rest

end

/-- `_parse_args`: dict arguments pass through; the JSON-string
indirection is modelled as already decoded, with anything non-dict
giving `{}`. -/
def parseArgs (v : JValue) : List (String × JValue) :=
  match v with
  | .obj fs => fs
  | _ => []

def argsGet (args : List (String × JValue)) (k : String) : JValue :=
  (jLookup args k).getD .null

/-- `x.strip()` on a value expected to be a string; `none` models the
`AttributeError` a truthy non-string raises (caught by the tool loop
and turned into an error output). -/
def stripOfJ : JValue → Option String
  | .str s => some (pyStrip s)
  | _ => none

/-- `_tool_enviar_caixinha_interesse`. -/
def toolEnviarCaixinha (args : List (String × JValue)) : ToolResultM × List AEff :=
  let phone := onlyDigits (pyStrJ (pyOrJ (argsGet args "phone") (pyOrJ (argsGet args "numero") (.str ""))))
  if phone = "" then (.errMsg "phone ausente", [])
  else
    match stripOfJ (pyOrJ (argsGet args "text") (pyOrJ (.str OS_LUNA_MENU_TEXT) (.str ""))),
        stripOfJ (pyOrJ (argsGet args "yes_label") (pyOrJ (.str OS_LUNA_MENU_YES) (.str "Sim"))),
        stripOfJ (pyOrJ (argsGet args "no_label") (pyOrJ (.str OS_LUNA_MENU_NO) (.str "Não"))) with
    | some text, some yes, some no =>
      let footerJ := pyOrJ (argsGet args "footer_text") (.str OS_LUNA_MENU_FOOTER)
      let footer := if jTruthy footerJ then some (pyStrJ footerJ) else none
      (.sentOk, [.gwMenu phone text yes no footer])
    | _, _, _ => (.errMsg "TypeError", [])

/-- `_tool_enviar_video`: sends whenever a phone and a url are at hand —
no recency check of any kind. -/
def toolEnviarVideo (args : List (String × JValue)) : ToolResultM × List AEff :=
  let phone := onlyDigits (pyStrJ (pyOrJ (argsGet args "phone") (.str "")))
  if phone = "" then (.errMsg "phone ausente", [])
  else
    match stripOfJ (pyOrJ (argsGet args "url") (pyOrJ (.str OS_LUNA_VIDEO_URL) (.str ""))) with
    | none => (.errMsg "TypeError", [])
    | some url =>
      if url = "" then (.errMsg "url de vídeo ausente (e LUNA_VIDEO_URL vazio)", [])
      else
        match stripOfJ (pyOrJ (argsGet args "caption") (pyOrJ (.str OS_LUNA_VIDEO_CAPTION) (.str ""))) with
        | none => (.errMsg "TypeError", [])
        | some caption =>
          let mime := match pyOrJ (argsGet args "mime_type") .null with
            | .str s => some s
            | _ => none
          (.sentOk, [.gwMedia phone url caption mime])

def isCommaSemi (c : Char) : Bool := c = ',' ∨ c = ';'

def osSplitGo (acc : List Char) : List Char → List (List Char)
  | [] => if acc.isEmpty then [] else [acc.reverse]
  | c :: cs =>
    if isCommaSemi c then
      if acc.isEmpty then osSplitGo [] cs else acc.reverse :: osSplitGo [] cs
    else osSplitGo (c :: acc) cs

/-- `_parse_notify_numbers` (openai_service.py flavour: commas and
semicolons only). -/
def parseNotifyNumbersOS (raw : String) : List String :=
  ((osSplitGo [] raw.data).map (fun t => onlyDigits ⟨t⟩)).filter (fun d => d ≠ "")

/-- `_tool_enviar_msg` (handoff notification). -/
def toolEnviarMsg (args : List (String × JValue)) : ToolResultM × List AEff :=
  let leadPhone := onlyDigits (pyStrJ (pyOrJ (argsGet args "phone") (.str "")))
  match stripOfJ (pyOrJ (argsGet args "name") (.str "")),
      stripOfJ (pyOrJ (argsGet args "last") (.str "")) with
  | some n0, some l0 =>
    let name := if n0 ≠ "" then n0 else "—"
    let last := if l0 ≠ "" then l0 else "—"
    let body := buildHandoffText name leadPhone last
    let targets := parseNotifyNumbersOS OS_HANDOFF_NOTIFY_NUMBERS
    if targets.isEmpty then (.errMsg "HANDOFF_NOTIFY_NUMBERS vazio", [])
    else (.sentTargets targets, targets.map (fun t => .gwText t body))
  | _, _ => (.errMsg "TypeError", [])

/-- `_execute_tool_call`. -/
def execToolCall (tc : ToolCallRec) : (Option String × ToolResultM) × List AEff :=
  let name := pyLower (pyStrip tc.fname)
  let args := parseArgs tc.fargs
  let re :=
    if ["enviar_caixinha_interesse", "menu", "caixinha"].contains name then toolEnviarCaixinha args
    else if ["enviar_video", "video", "vídeo"].contains name then toolEnviarVideo args
    else if ["enviar_msg", "handoff", "transfer"].contains name then toolEnviarMsg args
    else (.errMsg ("tool desconhecida: " ++ name), [])
  ((tc.tcId, re.1), re.2)

def execTools : List ToolCallRec → List (Option String × ToolResultM) × List AEff
  | [] => ([], [])
  | tc :: rest =>
    let o := execToolCall tc
    let os := execTools rest
    (o.1 :: os.1, o.2 ++ os.2)

structure CPart where
  ptype : String
  pval : Option String
  deriving DecidableEq

structure MsgRec where
  role : String
  content : List CPart
  deriving DecidableEq

def findTextPart : List CPart → Option String
  | [] => none
  | c :: rest =>
    if c.ptype = "text" ∧ strTruthyOpt c.pval then
      some (pyStrip (c.pval.getD ""))
    else findTextPart rest

/-- The `completed` branch: the first assistant message with content and
a truthy text part; `"Certo!"` when none is found. -/
def extractFinal : List MsgRec → String
  | [] => "Certo!"
  | m :: rest =>
    if m.role = "assistant" ∧ ¬m.content.isEmpty then
      match findTextPart m.content with
      | some v => v
      | none => extractFinal rest
    else extractFinal rest

inductive PollResp where
  | err
  | stat (status : String) (tools : List ToolCallRec) (submitOk : Bool)

inductive AskOut where
  | reply (s : String) (effs : List AEff)
  | pending (waited : Nat) (effs : List AEff)
  deriving DecidableEq

def msgNoConfig : String := "Configuração de IA ausente. Por favor, tente novamente em instantes."
def msgAppendFail : String := "Não consegui falar com a IA agora. Podemos tentar de novo?"
def msgCreateFail : String := "Tive um problema ao iniciar a IA. Vamos tentar novamente já já."
def msgRetrieveFail : String := "A IA ficou indisponível no momento. Posso tentar outra vez?"
def msgTimeout : String := "Demorou um pouco mais do que o normal. Posso continuar por aqui?"
def msgSubmitFail : String := "Não consegui concluir uma ação solicitada pela IA. Podemos tentar de novo?"
def msgRunFailed : String := "A IA não conseguiu concluir agora. Podemos continuar por aqui?"
def msgListFail : String := "Tudo certo por aqui!"

/-- The polling loop (`while True:` of `ask_assistant`).  `waited` is
advanced by `SLEEP = 4` only in the `queued`/`in_progress` and
unexpected-status branches, exactly as in the source — the
`requires_action` branch sleeps 1 second and resumes with `waited`
untouched. -/
def askLoop (msgsRes : Except Unit (List MsgRec)) :
    List PollResp → Nat → List AEff → AskOut
  | [], waited, acc => .pending waited acc
  | r :: rest, waited, acc =>
    let acc := acc ++ [AEff.apiRetrieveRun]
    match r with
    | .err => .reply msgRetrieveFail acc
    | .stat statusRaw tools submitOk =>
      let status := pyLower statusRaw
      if status = "queued" ∨ status = "in_progress" then
        if waited + 4 ≥ 120 then .reply msgTimeout acc
        else askLoop msgsRes rest (waited + 4) acc
      else if status = "requires_action" then
        let outs := execTools tools
        let acc := acc ++ outs.2 ++ [AEff.apiSubmit outs.1]
        if ¬submitOk then .reply msgSubmitFail acc
        else askLoop msgsRes rest waited acc
      else if status = "completed" then
        let acc := acc ++ [AEff.apiListMsgs]
        match msgsRes with
        | .error _ => .reply msgListFail acc
        | .ok ms => .reply (extractFinal ms) acc
      else if ["failed", "expired", "canceled", "cancelled"].contains status then
        .reply msgRunFailed acc
      else
        if waited + 4 ≥ 120 then .reply msgTimeout acc
        else askLoop msgsRes rest (waited + 4) acc

/-- `ask_assistant`.  `configOk` models `OPENAI_API_KEY`/`ASSISTANT_ID`
being set; `appendOk.getD 0 false` is the outcome of the single append
the source performs (the rest of the list is what further attempts
would have returned). -/
def askAssistant (configOk : Bool) (userText : String) (appendOk : List Bool) (createOk : Bool)
    (polls : List PollResp) (msgsRes : Except Unit (List MsgRec)) : AskOut :=
  if ¬configOk then .reply msgNoConfig []
  else
    let acc := [AEff.apiAppend userText]
    if ¬(appendOk.getD 0 false) then .reply msgAppendFail acc
    else if ¬createOk then .reply msgCreateFail (acc ++ [AEff.apiCreateRun])
    else askLoop msgsRes polls 0 (acc ++ [AEff.apiCreateRun])

/-! ## Effect-trace vocabulary used by the statements -/

def hasCallAI (l : List Act) : Bool :=
  l.any (fun a => match a with | .callAI _ => true | _ => false)

def hasSendMedia (l : List Act) : Bool :=
  l.any (fun a => match a with | .sendMedia _ _ _ => true | _ => false)

def hasCompletionEff (l : List AEff) : Bool :=
  l.any (fun a => match a with | .statelessCompletion => true | _ => false)

def countAppendEff (l : List AEff) : Nat :=
  (l.filter (fun a => match a with | .apiAppend _ => true | _ => false)).length

/-! # Theorems -/

/-! ## Claim C1 -/

/-- Claim C1 (code bug): the normalizer is not total.  On the valid JSON
payload `[]` (a non-object document), `_extract_sender_and_type` reaches
`event.get("chatId")` on a list and raises `AttributeError`, and
`webhook_post` has no handler for it, so the exception escapes to the
caller instead of the promised `no phone` acknowledgement. -/
theorem c1_extract_raises_on_array :
    extractSenderAndType (.arr []) = .error .attributeError ∧
    webhookPost "" none none none (some (.arr [])) none none 0 = .err .attributeError :=
  ⟨rfl, rfl⟩

/-! ## Claim C6 -/

/-- Claim C6 (code bug): `wasRecentlySent` never returns true at all,
let alone with the claimed window boundary.  The query inside
`_has_recent_generic` references the nonexistent `Message.created_at`
(the `Message` column is `timestamp`), the `AttributeError` is raised
at query construction and swallowed by the `except`, so the check is
`False` on every call — shown here in general and at a last outbound
event one second old, strictly inside the window, where the claim
requires `true`.  The `<=` comparison at line 358 (`hasRecentBody`,
which would moreover be inclusive at the exact window edge, against the
claim's strict bound) is dead code. -/
theorem c6_window_check_dead :
    (∀ (last : Option MsgRow) (now m : Int), hasRecentGeneric last now m = false) ∧
    (hasRecentGeneric (some ⟨some 0⟩) 1 30 = false ∧ (1 : Int) - 0 < 30 * 60) :=
  ⟨fun _ _ _ => rfl, rfl, by decide⟩

/-! ## Claim C9 -/

/-- Claim C9: `_ensure_authorised` rejects with 403 iff the configured
secret is non-empty and the token extracted from the request (header,
then `token`, then `hub.verify_token`, as `extractTokenFromRequest`
encodes) differs from it; with an empty secret every request passes. -/
theorem c9_auth : ∀ (expected : String) (h q hub : Option String),
    (authRejects expected h q hub = true ↔
      (expected ≠ "" ∧ extractTokenFromRequest h q hub ≠ some expected)) ∧
    authRejects "" h q hub = false := by
  intro e h q hub
  constructor
  · simp [authRejects]
  · simp [authRejects]

/-! ## Claim C10 -/

/-- Claim C10: when any of the five `fromMe` paths holds the boolean
`True`, the webhook (auth permitting) acknowledges 200 with note
`from_me` and performs no effect at all: no user row is created or
updated, no inbound event is persisted, no background task starts. -/
theorem c10_from_me : ∀ (e : String) (h q hub : Option String) (p : JValue)
    (userLookup : Option (Option String)) (lastInbound : Option LastRow) (now : Int),
    authRejects e h q hub = false → isFromMe p = true →
    webhookPost e h q hub (some p) userLookup lastInbound now = .resp 200 "from_me" [] := by
  intro e h q hub p ul li now ha hf
  simp [webhookPost, ha, hf]

theorem c10_from_me_witness :
    webhookPost "" none none none (some (.obj [("fromMe", .bool true)])) none none 0 =
      .resp 200 "from_me" [] :=
  c10_from_me "" none none none _ none none 0 rfl rfl

/-! ## Claim C4 -/

/-- Claim C4 counterexample: the first append fails (the active-run
conflict is one such failure) and a second attempt would have succeeded
(`[false, true]`), yet `ask_assistant` returns the canned fallback after
exactly one append call — there is no wait and no retry. -/
theorem c4_counterexample :
    askAssistant true "oi" [false, true] true [] (.ok []) = .reply msgAppendFail [.apiAppend "oi"] ∧
    countAppendEff [AEff.apiAppend "oi"] = 1 ∧
    [false, true].getD 1 false = true :=
  ⟨rfl, rfl, rfl⟩

/-- Claim C4 (amended): when the append fails — for any reason,
including the provider's active-run conflict — `ask_assistant` gives up
immediately: it returns the fixed fallback text after a single append
attempt, with no waiting loop and no retry, regardless of what later
attempts would have returned. -/
theorem c4_amended : ∀ (u : String) (rest : List Bool) (createOk : Bool)
    (polls : List PollResp) (msgs : Except Unit (List MsgRec)),
    askAssistant true u (false :: rest) createOk polls msgs =
      .reply msgAppendFail [.apiAppend u] ∧
    countAppendEff [AEff.apiAppend u] = 1 := by
  intro u rest c polls msgs
  exact ⟨by simp [askAssistant], rfl⟩

/-! ## Claims C5 and C3: the polling loop -/

/-- Claim C5 (code bug): the run-status polling loop is not bounded for
every provider behaviour.  Against a provider that answers
`requires_action` (empty tool batch, accepting every submission) at
every poll, the loop — shown here after consuming any number `k` of such
responses — is still running and its `waited` counter is unchanged: the
`requires_action` branch never advances `waited`, so the 120-second
ceiling is never approached and the polling is unbounded. -/
theorem c5_requires_action_unbounded :
    ∀ (k : Nat) (w : Nat) (acc : List AEff) (msgs : Except Unit (List MsgRec)),
    askLoop msgs (List.replicate k (.stat "requires_action" [] true)) w acc =
      .pending w (acc ++ (List.replicate k [AEff.apiRetrieveRun, AEff.apiSubmit []]).flatten) := by
  intro k
  induction k with
  | zero => intro w acc msgs; simp [askLoop]
  | succ n ih =>
    intro w acc msgs
    rw [List.replicate_succ, List.replicate_succ]
    have hstep : askLoop msgs
        (PollResp.stat "requires_action" [] true ::
          List.replicate n (PollResp.stat "requires_action" [] true)) w acc =
        askLoop msgs (List.replicate n (PollResp.stat "requires_action" [] true)) w
          (acc ++ [AEff.apiRetrieveRun] ++ [] ++ [AEff.apiSubmit []]) := rfl
    rw [hstep, ih]
    simp [List.flatten]

theorem askLoop_ip_then_term :
    ∀ (st : String), st ∈ ["failed", "expired", "canceled", "cancelled"] →
    ∀ (k : Nat) (i : Nat) (acc : List AEff) (msgs : Except Unit (List MsgRec)), i ≤ 29 →
    askLoop msgs (List.replicate k (.stat "in_progress" [] true) ++ [.stat st [] true]) (4 * i) acc =
      if 30 ≤ i + k then .reply msgTimeout (acc ++ List.replicate (30 - i) AEff.apiRetrieveRun)
      else .reply msgRunFailed (acc ++ List.replicate (k + 1) AEff.apiRetrieveRun) := by
  intro st hst k
  induction k with
  | zero =>
    intro i acc msgs hi
    rw [if_neg (by omega)]
    simp only [List.replicate_zero, List.nil_append]
    simp only [List.mem_cons, List.mem_singleton] at hst
    rcases hst with rfl | rfl | rfl | rfl | h
    · rfl
    · rfl
    · rfl
    · rfl
    · simp at h
  | succ n ih =>
    intro i acc msgs hi
    rw [List.replicate_succ, List.cons_append]
    by_cases h29 : i = 29
    · subst h29
      have hstep : askLoop msgs
          (PollResp.stat "in_progress" [] true ::
            (List.replicate n (PollResp.stat "in_progress" [] true) ++ [PollResp.stat st [] true]))
          (4 * 29) acc = .reply msgTimeout (acc ++ [AEff.apiRetrieveRun]) := rfl
      rw [hstep, if_pos (by omega)]
      have h30 : 30 - 29 = 1 := by omega
      rw [h30]
      rfl
    · have hlt : i < 29 := lt_of_le_of_ne hi h29
      have hstep : askLoop msgs
          (PollResp.stat "in_progress" [] true ::
            (List.replicate n (PollResp.stat "in_progress" [] true) ++ [PollResp.stat st [] true]))
          (4 * i) acc =
          if 4 * i + 4 ≥ 120 then .reply msgTimeout (acc ++ [AEff.apiRetrieveRun])
          else askLoop msgs
            (List.replicate n (PollResp.stat "in_progress" [] true) ++ [PollResp.stat st [] true])
            (4 * i + 4) (acc ++ [AEff.apiRetrieveRun]) := rfl
      rw [hstep, if_neg (by omega)]
      have h4 : 4 * i + 4 = 4 * (i + 1) := by ring
      rw [h4, ih (i + 1) (acc ++ [AEff.apiRetrieveRun]) msgs (by omega)]
      by_cases hc : 30 ≤ i + (n + 1)
      · rw [if_pos (by omega), if_pos hc]
        have hr : 30 - i = (30 - (i + 1)) + 1 := by omega
        rw [hr, List.replicate_succ, List.append_assoc]
        rfl
      · rw [if_neg (by omega), if_neg hc]
        rw [List.replicate_succ, List.append_assoc]
        rfl

theorem noCompletion_replicate_retr :
    ∀ m : Nat, hasCompletionEff (List.replicate m AEff.apiRetrieveRun) = false := by
  intro m
  induction m with
  | zero => rfl
  | succ n ih => simp [List.replicate_succ, hasCompletionEff, List.any_cons]

/-- Claim C3 (amended): when the run ends in a terminal failure state
(`failed`/`expired`/`canceled`/`cancelled`) or the polling ceiling is
reached first, `ask_assistant` returns a fixed, non-empty canned apology
text — it performs no stateless single-turn completion call (no code
path emits one) — so the caller always receives some non-empty reply
rather than an error. -/
theorem c3_amended : ∀ (k : Nat) (st : String) (u : String) (msgs : Except Unit (List MsgRec)),
    st ∈ ["failed", "expired", "canceled", "cancelled"] →
    askAssistant true u [true] true
        (List.replicate k (.stat "in_progress" [] true) ++ [.stat st [] true]) msgs =
      (if 30 ≤ k then
        .reply msgTimeout ([AEff.apiAppend u, AEff.apiCreateRun] ++ List.replicate 30 AEff.apiRetrieveRun)
       else
        .reply msgRunFailed ([AEff.apiAppend u, AEff.apiCreateRun] ++ List.replicate (k + 1) AEff.apiRetrieveRun)) ∧
    msgTimeout ≠ "" ∧ msgRunFailed ≠ "" ∧
    hasCompletionEff ([AEff.apiAppend u, AEff.apiCreateRun] ++ List.replicate 30 AEff.apiRetrieveRun) = false ∧
    hasCompletionEff ([AEff.apiAppend u, AEff.apiCreateRun] ++ List.replicate (k + 1) AEff.apiRetrieveRun) = false := by
  intro k st u msgs hst
  refine ⟨?_, by decide, by decide, ?_, ?_⟩
  · have h := askLoop_ip_then_term st hst k 0 [AEff.apiAppend u, AEff.apiCreateRun] msgs (by omega)
    have h0 : (4 : Nat) * 0 = 0 := by omega
    rw [h0] at h
    have hask : askAssistant true u [true] true
        (List.replicate k (.stat "in_progress" [] true) ++ [.stat st [] true]) msgs =
        askLoop msgs (List.replicate k (.stat "in_progress" [] true) ++ [.stat st [] true]) 0
          [AEff.apiAppend u, AEff.apiCreateRun] := rfl
    rw [hask, h]
    have hz : 0 + k = k := by omega
    have hs : 30 - 0 = 30 := by omega
    rw [hz, hs]
  · simp [hasCompletionEff, List.any_append]
  · simp [hasCompletionEff, List.any_append]

/-- Claim C3 counterexample: a run that immediately reports `failed`.
`ask_assistant` answers with the canned apology text after the three
provider calls made so far; its effect trace contains no stateless
single-turn completion — the module has no such call — contradicting
the claimed fallback-completion behaviour. -/
theorem c3_counterexample :
    askAssistant true "oi" [true] true [.stat "failed" [] true] (.ok []) =
      .reply msgRunFailed [.apiAppend "oi", .apiCreateRun, .apiRetrieveRun] ∧
    hasCompletionEff [AEff.apiAppend "oi", AEff.apiCreateRun, AEff.apiRetrieveRun] = false ∧
    msgRunFailed ≠ "" :=
  ⟨rfl, rfl, by decide⟩

theorem c3_amended_witness :
    askAssistant true "oi2" [true] true [.stat "expired" [] true] (.ok []) =
      .reply msgRunFailed ([AEff.apiAppend "oi2", AEff.apiCreateRun] ++
        List.replicate 1 AEff.apiRetrieveRun) := by
  have h := (c3_amended 0 "expired" "oi2" (.ok []) (by simp)).1
  simpa using h

/-! ## Claim C2: the menu fast-path -/

/-- Claim C2 (code bug): the "answer SIM/NÃO locally, without the AI"
shortcut (step 0, whatsapp.py lines 788-803; announced by the module
docstring "Atalho local: após a caixinha, interpreta SIM/NÃO sem chamar
a IA") never fires.  `menu_recent` comes from `_has_recent_generic`,
which is `False` on every call (dead `Message.created_at` query), so
with a menu event persisted 300 seconds earlier — well inside the
30-minute window — and the affirmative reply `"sim"` (and no video ever
sent), the dispatcher still falls through to step 1 and calls the AI
Orchestrator. -/
theorem c2_menu_guard_dead :
    hasRecentGeneric (some ⟨some 1500⟩) 1800 30 = false ∧
    isPositiveReply defaultEnv (some "sim") = true ∧
    hasCallAI (processMessage defaultEnv
      (computedState (some ⟨some 1500⟩) none none none none 1800 (some "Ana"))
      "5531999990000" "text" (some "sim") "Certo!") = true :=
  ⟨rfl, rfl, rfl⟩

/-! ## Claim C8: anti-duplicate video suppression -/

/-- Claim C8 (code bug): the claimed suppression does not exist on
either path.  Dispatcher (text tool-hint) path: `video_recent` is
always `False` (dead `Message.created_at` query), so with the video URL
configured, a video event persisted 10 seconds earlier, and the AI
replying with a video tool-hint, the dispatcher guard at lines 925-929
— whose log line shows the intent to suppress — never fires and the
media is sent again (second conjunct).  `requires_action` path:
`_tool_enviar_video` consults no state at all and invokes the adapter
whenever a phone and url are at hand (third conjunct). -/
theorem c8_suppression_dead :
    hasRecentGeneric (some ⟨some 1790⟩) 1800 30 = false ∧
    hasSendMedia (processMessage
      { defaultEnv with videoUrl := "https://cdn.example/v.mp4" }
      (computedState none (some ⟨some 1790⟩) none none none 1800 (some "Ana"))
      "5531999990000" "text" (some "pode mandar?") "#tools(enviar_video)") = true ∧
    askAssistant true "quero ver" [true] true
      [.stat "requires_action"
        [⟨some "call_1", "enviar_video",
          .obj [("phone", .str "5531999990000"), ("url", .str "https://cdn.example/v.mp4")]⟩] true,
       .stat "completed" [] true]
      (.ok [⟨"assistant", [⟨"text", some "Ok"⟩]⟩]) =
    .reply "Ok"
      [ .apiAppend "quero ver", .apiCreateRun, .apiRetrieveRun
      , .gwMedia "5531999990000" "https://cdn.example/v.mp4" "" none
      , .apiSubmit [(some "call_1", .sentOk)], .apiRetrieveRun, .apiListMsgs ] :=
  ⟨rfl, rfl, rfl⟩

/-! ## Claim C7: inbound deduplication -/

/-- Claim C7 (code bug): no inbound is ever deduplicated.
`_is_probably_duplicate` always returns `False` (its query also orders
by the nonexistent `Message.created_at` and the `AttributeError` is
swallowed at line 1058) — first conjunct, for every input.  Second
conjunct: a webhook delivery whose immediately preceding inbound from
the same participant is structurally identical (text `"oi"`, kind
`text`) and only 3 seconds old is still answered `received`, persisted,
and handed to a second background pipeline task, instead of being
dropped with exactly one processed execution. -/
theorem c7_dedup_dead :
    (∀ (li : Option LastRow) (text : Option String) (mt : String) (now w : Int),
      isProbablyDuplicate li text mt now w = false) ∧
    webhookPost "" none none none
      (some (.obj [("messages", .arr [.obj
        [("key", .obj [("remoteJid", .str "5531988887777@s.whatsapp.net")]),
         ("message", .obj [("conversation", .str "oi")])]])]))
      (some (some "Ana")) (some ⟨some "oi", "text", 0⟩) 3 =
    .resp 200 "received" [.persistInbound (some "oi") "text",
      .startTask "5531988887777" "text" (some "oi")] :=
  ⟨fun _ _ _ _ _ => rfl, rfl⟩

end Luna

